import Mathlib

/-!
Verification of the order-management slice: the `Order` model with its
`save` override (src/orders/models.py) and the order-confirmed signal
handler `update_quantity_on_order_confirmation` (src/products/signals.py).

Modelling conventions:
* Decimal currency amounts with two fractional digits are represented
  exactly in cents as `Int` (so a price of 9.99 is `999` and a total of
  29.97 is `2997`).  Multiplication of a cent amount by an integer
  quantity is exact, matching Python `Decimal * int`.
* The database is a record of a product table and an order table, each a
  list of rows.  `save` on a model instance is an explicit function from
  database to database; a failed lookup is an `Except.error`, matching a
  raised `DoesNotExist` that surfaces to the caller with nothing written.
* Product stock is `Int`: the handler performs an unguarded subtraction,
  so the stored value can go negative.
-/

/-- Modelled from the spec: the `Product` model (src/products/models.py is
not part of the given source).  Per the spec it has at least `name` (text),
`price` (decimal currency amount, here in cents) and `quantity` (integer
stock count); persistence performs no validation of its own.  An `id`
field stands for the primary key used by foreign-key lookups. -/
structure Product where
  id : Nat
  name : String
  price : Int
  quantity : Int
deriving Repr, DecidableEq

/-- The `Order` model of src/orders/models.py: a foreign key to `Product`
(kept as the referenced primary key), a positive-integer quantity
(`PositiveIntegerField`, which admits every natural number including 0),
a nullable two-decimal `total_price` (in cents) and a `confirmed` flag
defaulting to false. -/
structure Order where
  id : Nat
  productId : Nat
  quantity : Nat
  total_price : Option Int
  confirmed : Bool
deriving Repr, DecidableEq

/-- The persisted state: the product table and the order table. -/
structure DB where
  products : List Product
  orders : List Order
deriving Repr, DecidableEq

/-- Foreign-key dereference: fetch the product row with the given primary
key, as `order.product` does in Django (raising `DoesNotExist`, i.e.
`none`, when the row is absent). -/
def DB.findProduct (db : DB) (pid : Nat) : Option Product :=
  db.products.find? (fun p => p.id == pid)

/-- `product.save()` on an existing row: overwrite the row whose primary
key matches with the in-memory instance. -/
def DB.saveProduct (db : DB) (p : Product) : DB :=
  { db with products := db.products.map (fun q => if q.id == p.id then p else q) }

/-- Persisting an order row (`super().save()`): update in place when the
primary key exists, insert otherwise. -/
def DB.saveOrderRecord (db : DB) (o : Order) : DB :=
  if db.orders.any (fun q => q.id == o.id) then
    { db with orders := db.orders.map (fun q => if q.id == o.id then o else q) }
  else
    { db with orders := db.orders ++ [o] }

/-- `Order.save` from src/orders/models.py: dereference `self.product`
(an error surfaces to the caller if the referenced product is gone, and
nothing is written), set `self.total_price = self.product.price *
self.quantity`, then persist via `super().save()`.  Returns the updated
database together with the saved instance. -/
def Order.save (db : DB) (o : Order) : Except String (DB × Order) :=
  match db.findProduct o.productId with
  | none => Except.error "Product matching query does not exist."
  | some p =>
      let o2 : Order := { o with total_price := some (p.price * (o.quantity : Int)) }
      Except.ok (db.saveOrderRecord o2, o2)

/-- `update_quantity_on_order_confirmation` from src/products/signals.py:
on receipt of an order-confirmed notification with the order as `sender`,
dereference `sender.product`, subtract `sender.quantity` from its
`quantity`, persist the product, and print
`Quantity updated for {name}. New quantity: {quantity}`.  Returns the
updated database and the printed line. -/
def update_quantity_on_order_confirmation (db : DB) (sender : Order) :
    Except String (DB × String) :=
  match db.findProduct sender.productId with
  | none => Except.error "Product matching query does not exist."
  | some product =>
      let product2 : Product :=
        { product with quantity := product.quantity - (sender.quantity : Int) }
      let db2 := db.saveProduct product2
      Except.ok (db2,
        "Quantity updated for " ++ product2.name ++ ". New quantity: " ++
          toString product2.quantity)

/-! ### Concrete scenario from the spec (Widget, price 9.99, stock 100) -/

def widget0 : Product := { id := 1, name := "Widget", price := 999, quantity := 100 }

def order0 : Order :=
  { id := 1, productId := 1, quantity := 3, total_price := none, confirmed := false }

def db0 : DB := { products := [widget0], orders := [] }

/-- The order as stored by `Order.save` in the Widget scenario. -/
def order0saved : Order := { order0 with total_price := some 2997 }

/-- The database after saving the Widget order. -/
def db0saved : DB := { products := [widget0], orders := [order0saved] }

/-! ### Helper lemmas -/

/-- A saved order row is present in the order table afterwards. -/
lemma mem_orders_saveOrderRecord (db : DB) (o : Order) :
    o ∈ (db.saveOrderRecord o).orders := by
  unfold DB.saveOrderRecord
  split
  · rename_i h
    rcases List.any_eq_true.mp h with ⟨q, hq, hid⟩
    exact List.mem_map.mpr ⟨q, hq, by simp [hid]⟩
  · simp

/-- List form: overwriting the first row with a matching id makes the
lookup of that id return the new row, provided a matching row existed. -/
lemma find?_map_overwrite (l : List Product) (p q : Product)
    (hfind : l.find? (fun r => r.id == p.id) = some q) :
    (l.map (fun r => if r.id == p.id then p else r)).find? (fun r => r.id == p.id)
      = some p := by
  induction l with
  | nil => simp at hfind
  | cons r l ih =>
      simp only [List.map_cons]
      by_cases hr : r.id = p.id
      · rw [if_pos (by simp [hr])]
        exact List.find?_cons_of_pos _ (by simp)
      · rw [if_neg (by simp [hr])]
        rw [List.find?_cons_of_neg _ (by simp [hr])] at hfind
        rw [List.find?_cons_of_neg _ (by simp [hr])]
        exact ih hfind

/-- After `saveProduct p`, looking up `p.id` finds exactly `p`, provided
some row with that id existed. -/
lemma findProduct_saveProduct (db : DB) (p q : Product)
    (hfind : db.findProduct p.id = some q) :
    (db.saveProduct p).findProduct p.id = some p := by
  unfold DB.findProduct DB.saveProduct at *
  exact find?_map_overwrite db.products p q hfind

/-- `saveProduct` leaves every row at a position whose id differs from the
saved product's id unchanged. -/
lemma saveProduct_getElem_of_ne (db : DB) (p : Product) (i : Nat) (q : Product)
    (hq : db.products[i]? = some q) (hne : q.id ≠ p.id) :
    (db.saveProduct p).products[i]? = some q := by
  unfold DB.saveProduct
  simp only [List.getElem?_map, hq, Option.map_some]
  simp [hne]

/-- `saveProduct` does not touch the order table. -/
lemma orders_saveProduct (db : DB) (p : Product) :
    (db.saveProduct p).orders = db.orders := rfl

/-- Core behaviour of the signal handler when the product lookup
succeeds: it returns the database with the product overwritten by its
decremented copy, together with the observability line. -/
lemma handler_eq_of_findProduct (db : DB) (sender : Order) (p : Product)
    (hfind : db.findProduct sender.productId = some p) :
    update_quantity_on_order_confirmation db sender =
      Except.ok
        (db.saveProduct { p with quantity := p.quantity - (sender.quantity : Int) },
         "Quantity updated for " ++ p.name ++ ". New quantity: " ++
           toString (p.quantity - (sender.quantity : Int))) := by
  unfold update_quantity_on_order_confirmation
  rw [hfind]

/-- After one successful delivery, looking up the sender's product finds
the decremented row. -/
lemma handler_findProduct (db db2 : DB) (sender : Order) (p : Product)
    (msg : String)
    (hfind : db.findProduct sender.productId = some p)
    (hrun : update_quantity_on_order_confirmation db sender = Except.ok (db2, msg)) :
    db2.findProduct sender.productId =
      some { p with quantity := p.quantity - (sender.quantity : Int) } := by
  rw [handler_eq_of_findProduct db sender p hfind] at hrun
  have hdb : db2 = db.saveProduct { p with quantity := p.quantity - (sender.quantity : Int) } := by
    injection hrun with h
    exact (congrArg Prod.fst h).symm
  subst hdb
  have hid : p.id = sender.productId := by
    have := List.find?_some hfind
    simpa using this
  rw [← hid] at hfind ⊢
  exact findProduct_saveProduct db _ p hfind

/-! ### Claim theorems -/

/-- C1: saving an Order overwrites `total_price` with
`product.price * quantity` (exactly, in cents) before persisting, so the
saved record satisfies the invariant on every save — including re-saves
after a price change, since the price used is the one found in the
current database. -/
theorem order_save_total_price (db db2 : DB) (o o2 : Order) (p : Product)
    (hfind : db.findProduct o.productId = some p)
    (hsave : Order.save db o = Except.ok (db2, o2)) :
    o2.total_price = some (p.price * (o.quantity : Int)) ∧ o2 ∈ db2.orders := by
  unfold Order.save at hsave
  rw [hfind] at hsave
  have h2 : o2 = { o with total_price := some (p.price * (o.quantity : Int)) } := by
    injection hsave with h
    exact (congrArg Prod.snd h).symm
  have hdb : db2 = db.saveOrderRecord { o with total_price := some (p.price * (o.quantity : Int)) } := by
    injection hsave with h
    exact (congrArg Prod.fst h).symm
  subst h2; subst hdb
  exact ⟨rfl, mem_orders_saveOrderRecord db _⟩

/-- C1 witness: the Widget scenario — price 9.99 (999 cents), quantity 3:
the saved order's total price is 29.97 (2997 cents). -/
theorem order_save_total_price_witness :
    order0saved.total_price = some (widget0.price * (order0.quantity : Int)) ∧
      order0saved ∈ db0saved.orders :=
  order_save_total_price db0 db0saved order0 order0saved widget0 (by decide) (by rfl)

/-- An order with quantity 0, for the zero-quantity claim. -/
def orderZ : Order :=
  { id := 2, productId := 1, quantity := 0, total_price := none, confirmed := false }

/-- C7: an Order with quantity 0 is accepted by `save` (the
`PositiveIntegerField` constraint admits 0) and the stored `total_price`
is 0, since `price * 0 = 0`. -/
theorem order_save_zero_quantity (db : DB) (o : Order) (p : Product)
    (hfind : db.findProduct o.productId = some p)
    (hq : o.quantity = 0) :
    Order.save db o =
      Except.ok (db.saveOrderRecord { o with total_price := some 0 },
        { o with total_price := some 0 }) := by
  unfold Order.save
  rw [hfind]
  simp [hq]

/-- C7 witness: saving a zero-quantity order on the Widget database
succeeds with total price 0. -/
theorem order_save_zero_quantity_witness :
    db0.findProduct orderZ.productId = some widget0 ∧ orderZ.quantity = 0 ∧
      Order.save db0 orderZ =
        Except.ok (db0.saveOrderRecord { orderZ with total_price := some 0 },
          { orderZ with total_price := some 0 }) :=
  ⟨by decide, rfl, order_save_zero_quantity db0 orderZ widget0 (by decide) rfl⟩

/-- C8: saving an Order whose referenced Product is missing fails with an
error surfaced to the caller; no updated database is produced, so the
stored state is unchanged. -/
theorem order_save_missing_product (db : DB) (o : Order)
    (hfind : db.findProduct o.productId = none) :
    Order.save db o = Except.error "Product matching query does not exist." := by
  unfold Order.save
  rw [hfind]

/-- C8 witness: saving the Widget order against an empty product table
errors out. -/
theorem order_save_missing_product_witness :
    (DB.mk [] []).findProduct order0.productId = none ∧
      Order.save (DB.mk [] []) order0 =
        Except.error "Product matching query does not exist." :=
  ⟨by decide, order_save_missing_product (DB.mk [] []) order0 (by decide)⟩

/-- The Widget row after one confirmed-order decrement (100 - 3 = 97). -/
def widget97 : Product := { id := 1, name := "Widget", price := 999, quantity := 97 }

/-- The database after one delivery of the Widget confirmation. -/
def db97 : DB := { products := [widget97], orders := [] }

/-- The observability line of the first Widget delivery. -/
def msg97 : String := "Quantity updated for Widget. New quantity: 97"

/-- C2: one delivery of the order-confirmed notification performs exactly
one decrement on the sender's product: afterwards the persisted row for
that product is the old row with `quantity` reduced by exactly the
order's quantity, every other field intact. -/
theorem handler_single_decrement (db db2 : DB) (sender : Order) (p : Product)
    (msg : String)
    (hfind : db.findProduct sender.productId = some p)
    (hrun : update_quantity_on_order_confirmation db sender = Except.ok (db2, msg)) :
    db2.findProduct sender.productId =
      some { p with quantity := p.quantity - (sender.quantity : Int) } :=
  handler_findProduct db db2 sender p msg hfind hrun

/-- C2 witness: the Widget confirmation takes the stock from 100 to 97
and persists the decremented row. -/
theorem handler_single_decrement_witness :
    db0.findProduct order0.productId = some widget0 ∧
      update_quantity_on_order_confirmation db0 order0 = Except.ok (db97, msg97) ∧
      db97.findProduct order0.productId =
        some { widget0 with quantity := widget0.quantity - (order0.quantity : Int) } :=
  ⟨by decide, by rfl,
    handler_single_decrement db0 db97 order0 widget0 msg97 (by decide) (by rfl)⟩

/-- C3: the line emitted by the handler is exactly
`Quantity updated for ` + product name + `. New quantity: ` + the
post-decrement quantity. -/
theorem handler_message (db db2 : DB) (sender : Order) (p : Product) (msg : String)
    (hfind : db.findProduct sender.productId = some p)
    (hrun : update_quantity_on_order_confirmation db sender = Except.ok (db2, msg)) :
    msg = "Quantity updated for " ++ p.name ++ ". New quantity: " ++
      toString (p.quantity - (sender.quantity : Int)) := by
  rw [handler_eq_of_findProduct db sender p hfind] at hrun
  injection hrun with h
  exact (congrArg Prod.snd h).symm

/-- C3 witness: in the Widget scenario the emitted line is
`Quantity updated for Widget. New quantity: 97`. -/
theorem handler_message_witness :
    db0.findProduct order0.productId = some widget0 ∧
      update_quantity_on_order_confirmation db0 order0 = Except.ok (db97, msg97) ∧
      msg97 = "Quantity updated for " ++ widget0.name ++ ". New quantity: " ++
        toString (widget0.quantity - (order0.quantity : Int)) :=
  ⟨by decide, by rfl,
    handler_message db0 db97 order0 widget0 msg97 (by decide) (by rfl)⟩

/-- The Widget row after a second delivery of the same confirmation. -/
def widget94 : Product := { id := 1, name := "Widget", price := 999, quantity := 94 }

/-- The database after two deliveries of the Widget confirmation. -/
def db94 : DB := { products := [widget94], orders := [] }

/-- The observability line of the second Widget delivery. -/
def msg94 : String := "Quantity updated for Widget. New quantity: 94"

/-- C4: the handler has no already-processed guard, so delivering the
same notification twice decrements the product twice: the persisted
quantity drops by twice the order's quantity in total. -/
theorem handler_not_idempotent (db db1 db2 : DB) (sender : Order) (p : Product)
    (m1 m2 : String)
    (hfind : db.findProduct sender.productId = some p)
    (h1 : update_quantity_on_order_confirmation db sender = Except.ok (db1, m1))
    (h2 : update_quantity_on_order_confirmation db1 sender = Except.ok (db2, m2)) :
    db2.findProduct sender.productId =
      some { p with quantity := p.quantity - 2 * (sender.quantity : Int) } := by
  have f1 := handler_findProduct db db1 sender p m1 hfind h1
  have f2 := handler_findProduct db1 db2 sender _ m2 f1 h2
  convert f2 using 3
  ring

/-- C4 witness: delivering the Widget confirmation twice takes the stock
from 100 to 94. -/
theorem handler_not_idempotent_witness :
    db0.findProduct order0.productId = some widget0 ∧
      update_quantity_on_order_confirmation db0 order0 = Except.ok (db97, msg97) ∧
      update_quantity_on_order_confirmation db97 order0 = Except.ok (db94, msg94) ∧
      db94.findProduct order0.productId =
        some { widget0 with quantity := widget0.quantity - 2 * (order0.quantity : Int) } :=
  ⟨by decide, by rfl, by rfl,
    handler_not_idempotent db0 db97 db94 order0 widget0 msg97 msg94
      (by decide) (by rfl) (by rfl)⟩

/-- An unrelated second product, for the frame claim. -/
def gadget0 : Product := { id := 2, name := "Gadget", price := 500, quantity := 50 }

/-- A two-product database: Widget and Gadget. -/
def dbTwo : DB := { products := [widget0, gadget0], orders := [] }

/-- The two-product database after the Widget confirmation. -/
def dbTwo97 : DB := { products := [widget97, gadget0], orders := [] }

/-- C5: handling a confirmation for an order referencing one product
leaves every product row with a different id untouched, all fields
included: row `i` of the product table is unchanged whenever its id is
not the sender's product id. -/
theorem handler_frame_other_products (db db2 : DB) (sender : Order) (msg : String)
    (i : Nat) (q : Product)
    (hq : db.products[i]? = some q)
    (hne : q.id ≠ sender.productId)
    (hrun : update_quantity_on_order_confirmation db sender = Except.ok (db2, msg)) :
    db2.products[i]? = some q := by
  cases hfind : db.findProduct sender.productId with
  | none =>
      unfold update_quantity_on_order_confirmation at hrun
      rw [hfind] at hrun
      exact absurd hrun (by simp)
  | some p =>
      rw [handler_eq_of_findProduct db sender p hfind] at hrun
      have hdb : db2 =
          db.saveProduct { p with quantity := p.quantity - (sender.quantity : Int) } := by
        injection hrun with h
        exact (congrArg Prod.fst h).symm
      subst hdb
      have hpid : p.id = sender.productId := by
        have := List.find?_some hfind
        simpa using this
      exact saveProduct_getElem_of_ne db _ i q hq (fun h => hne (h.trans hpid))

/-- C5 witness: confirming the Widget order in a Widget-and-Gadget
database leaves the Gadget row unchanged. -/
theorem handler_frame_other_products_witness :
    dbTwo.products[1]? = some gadget0 ∧ gadget0.id ≠ order0.productId ∧
      update_quantity_on_order_confirmation dbTwo order0 = Except.ok (dbTwo97, msg97) ∧
      dbTwo97.products[1]? = some gadget0 :=
  ⟨by decide, by decide, by rfl,
    handler_frame_other_products dbTwo dbTwo97 order0 msg97 1 gadget0
      (by decide) (by decide) (by rfl)⟩

/-- C6: the decrement is unguarded against underflow: when the order's
quantity exceeds the product's stock the handler still runs, persists the
decremented row, and the stored quantity is negative. -/
theorem handler_underflow_unguarded (db : DB) (sender : Order) (p : Product)
    (hfind : db.findProduct sender.productId = some p)
    (hlt : p.quantity < (sender.quantity : Int)) :
    update_quantity_on_order_confirmation db sender =
      Except.ok
        (db.saveProduct { p with quantity := p.quantity - (sender.quantity : Int) },
         "Quantity updated for " ++ p.name ++ ". New quantity: " ++
           toString (p.quantity - (sender.quantity : Int))) ∧
      (db.saveProduct { p with quantity := p.quantity - (sender.quantity : Int) }).findProduct
          sender.productId =
        some { p with quantity := p.quantity - (sender.quantity : Int) } ∧
      p.quantity - (sender.quantity : Int) < 0 := by
  refine ⟨handler_eq_of_findProduct db sender p hfind, ?_, by omega⟩
  have hpid : p.id = sender.productId := by
    have := List.find?_some hfind
    simpa using this
  rw [← hpid] at hfind ⊢
  exact findProduct_saveProduct db _ p hfind

/-- An order for 150 Widgets, more than the stock of 100. -/
def orderBig : Order :=
  { id := 3, productId := 1, quantity := 150, total_price := none, confirmed := false }

/-- C6 witness: an order for 150 Widgets against a stock of 100 drives
the persisted quantity to -50. -/
theorem handler_underflow_unguarded_witness :
    db0.findProduct orderBig.productId = some widget0 ∧
      widget0.quantity < (orderBig.quantity : Int) ∧
      (update_quantity_on_order_confirmation db0 orderBig =
        Except.ok
          (db0.saveProduct { widget0 with quantity := widget0.quantity - (orderBig.quantity : Int) },
           "Quantity updated for " ++ widget0.name ++ ". New quantity: " ++
             toString (widget0.quantity - (orderBig.quantity : Int))) ∧
        (db0.saveProduct { widget0 with quantity := widget0.quantity - (orderBig.quantity : Int) }).findProduct
            orderBig.productId =
          some { widget0 with quantity := widget0.quantity - (orderBig.quantity : Int) } ∧
        widget0.quantity - (orderBig.quantity : Int) < 0) :=
  ⟨by decide, by decide,
    handler_underflow_unguarded db0 orderBig widget0 (by decide) (by decide)⟩

/-- C9: the handler never modifies the order table — only the referenced
product is mutated and persisted.  (The `sender` value itself is a pure
value in this embedding and is read, never rebuilt: the handler's output
depends on it only through `productId` and `quantity`.) -/
theorem handler_preserves_orders (db db2 : DB) (sender : Order) (msg : String)
    (hrun : update_quantity_on_order_confirmation db sender = Except.ok (db2, msg)) :
    db2.orders = db.orders := by
  cases hfind : db.findProduct sender.productId with
  | none =>
      unfold update_quantity_on_order_confirmation at hrun
      rw [hfind] at hrun
      exact absurd hrun (by simp)
  | some p =>
      rw [handler_eq_of_findProduct db sender p hfind] at hrun
      have hdb : db2 =
          db.saveProduct { p with quantity := p.quantity - (sender.quantity : Int) } := by
        injection hrun with h
        exact (congrArg Prod.fst h).symm
      subst hdb
      exact orders_saveProduct db _

/-- C9 witness: the Widget confirmation against a database whose order
table holds the saved order leaves that order table as it was. -/
theorem handler_preserves_orders_witness :
    update_quantity_on_order_confirmation db0saved order0 =
      Except.ok (DB.mk [widget97] [order0saved], msg97) ∧
      (DB.mk [widget97] [order0saved]).orders = db0saved.orders :=
  ⟨by rfl,
    handler_preserves_orders db0saved (DB.mk [widget97] [order0saved]) order0 msg97 (by rfl)⟩

/-- C10: the handler never reads the `confirmed` flag: its result is
identical whatever value that flag has on the sender. -/
theorem handler_ignores_confirmed (db : DB) (sender : Order) (b1 b2 : Bool) :
    update_quantity_on_order_confirmation db { sender with confirmed := b1 } =
      update_quantity_on_order_confirmation db { sender with confirmed := b2 } := rfl
